import Mathlib

/-!
# Verification of the ImpulseGuard backend against its specification

This file gives a shallow embedding, in Lean 4, of the parts of the
ImpulseGuard backend (a two-stage impulse-purchase decision service)
that the specification's claims are about:

* the Bayesian scoring kernel (`backend/inference_engine.py`):
  z-scores, sigmoid likelihoods, context multipliers, Bayesian update,
  and the intervention-level mapping;
* the memory engine (`backend/memory.py`): the Gemini gateway retry
  loop with its 429/403 handling, the reasoner's fallback verdict, the
  Markdown chunker, the simple-append update, the observation counter,
  and the index upsert performed by `apply_memory_update`;
* the reset endpoint and the memory-file templates (`backend/app.py`).

Python strings are modelled as `List Char` (`Str` below), so that all
text manipulation is structurally recursive and can be evaluated by the
kernel.  Real-valued float arithmetic in the scoring kernel is modelled
over `ℝ` with `Real.exp` standing for `np.exp`.  Claims are stated and
settled at the end of the file, one theorem per claim.
-/

/-- Python strings as lists of characters. -/
abbrev Str := List Char

/-- `strStarts pat s` is Python's `s.startswith(pat)`. -/
def strStarts : Str → Str → Bool
  | [], _ => true
  | _ :: _, [] => false
  | p :: ps, c :: cs => p == c && strStarts ps cs

/-- `containsSub s pat` is Python's `pat in s` (substring containment). -/
def containsSub : Str → Str → Bool
  | [], pat => pat.isEmpty
  | c :: rest, pat => strStarts pat (c :: rest) || containsSub rest pat

/-- Auxiliary loop for `splitOnL`: splits at each non-overlapping,
leftmost-first occurrence of the (non-empty) separator `pat`,
accumulating the current piece in reversed form in `acc`.  Structural
recursion on a fuel argument (each step consumes at least one character,
so fuel equal to the string length never runs out); this keeps the
function kernel-reducible. -/
def splitOnFuel (pat : Str) : ℕ → Str → Str → List Str
  | _, [], acc => [acc.reverse]
  | 0, _ :: _, acc => [acc.reverse]
  | fuel + 1, c :: rest, acc =>
    if pat ≠ [] ∧ strStarts pat (c :: rest) then
      acc.reverse :: splitOnFuel pat fuel ((c :: rest).drop pat.length) []
    else
      splitOnFuel pat fuel rest (c :: acc)

/-- Python's `s.split(pat)` for a non-empty separator `pat`. -/
def splitOnL (s pat : Str) : List Str := splitOnFuel pat s.length s []

/-- Number of non-overlapping occurrences of `pat` in `s`
(the standard `split`-based count, Python's `s.count(pat)`). -/
def countSubstr (s pat : Str) : ℕ := (splitOnL s pat).length - 1

/-- Python's `s.replace(old, new)`: replaces every non-overlapping
occurrence, scanning left to right (equal to `new.join(s.split(old))`). -/
def replaceAll (s old new : Str) : Str := List.intercalate new (splitOnL s old)

/-- ASCII whitespace, as stripped by Python's `str.strip()` on the
inputs that occur in this code base. -/
def isWs (c : Char) : Bool := c == ' ' || c == '\t' || c == '\n' || c == '\r'

/-- Python's `s.strip()`. -/
def trimL (s : Str) : Str :=
  ((s.dropWhile isWs).reverse.dropWhile isWs).reverse

/-- Python's `s.split('\n')`. -/
def splitLines : Str → List Str
  | [] => [[]]
  | c :: rest =>
    if c = '\n' then [] :: splitLines rest
    else
      match splitLines rest with
      | [] => [[c]]
      | l :: ls => (c :: l) :: ls

/-- Python's `'\n'.join(lines)`. -/
def joinLines (lines : List Str) : Str := List.intercalate ['\n'] lines

theorem splitLines_ne_nil (s : Str) : splitLines s ≠ [] := by
  induction s with
  | nil => simp [splitLines]
  | cons c rest ih =>
    simp only [splitLines]
    split
    · simp
    · split
      · simp
      · simp

/-- Splitting at an explicit newline splits the two sides independently:
`splitLines` is blind to any sectioning of the file. -/
theorem splitLines_append (a b : Str) :
    splitLines (a ++ '\n' :: b) = splitLines a ++ splitLines b := by
  induction a with
  | nil => simp [splitLines]
  | cons c rest ih =>
    simp only [List.cons_append, splitLines, List.append_eq]
    rw [ih]
    by_cases hc : c = '\n'
    · simp [hc]
    · simp only [if_neg hc]
      cases h : splitLines rest with
      | nil => exact absurd h (splitLines_ne_nil rest)
      | cons l ls => simp [h]

/-!
## Scoring kernel: intervention-level mapping
(`ImpulseInferenceEngine.get_intervention_level`,
`inference_engine.py` lines 77-83 and 345-362)

The thresholds are exact decimal literals in the source, so the mapping
is embedded over `ℚ`.
-/

/-- `ImpulseInferenceEngine.INTERVENTION_THRESHOLDS` (keys in source order). -/
structure InterventionThresholds where
  NONE : ℚ
  NUDGE : ℚ
  CHALLENGE : ℚ
  LOCKOUT : ℚ

def INTERVENTION_THRESHOLDS : InterventionThresholds :=
  { NONE := 0.3, NUDGE := 0.6, CHALLENGE := 0.8, LOCKOUT := 1.0 }

/-- `ImpulseInferenceEngine.get_intervention_level` (lines 345-362). -/
def get_intervention_level (p_score : ℚ) : String :=
  if p_score < INTERVENTION_THRESHOLDS.NONE then "NONE"
  else if p_score < INTERVENTION_THRESHOLDS.NUDGE then "NUDGE"
  else if p_score < INTERVENTION_THRESHOLDS.CHALLENGE then "CHALLENGE"
  else "LOCKOUT"

/-!
## Memory store: observation counter, simple append, templates
(`MemoryEngine._count_observations`, `MemoryEngine._simple_append_update`
in `memory.py`; `MEMORY_TEMPLATES` in `app.py`)
-/

/-- The placeholder bullet text used by the memory templates. -/
def PLACEHOLDER : Str := "[No patterns recorded yet]".data

/-- A line counts as an observation (`_count_observations`, lines 960-968):
after stripping it starts with `- ` and contains none of the placeholder
markers `[No `, `[AMOUNT]`, `[ ]`. -/
def isObservationLine (line : Str) : Bool :=
  let l := trimL line
  strStarts "- ".data l &&
    !(containsSub l "[No ".data || containsSub l "[AMOUNT]".data ||
      containsSub l "[ ]".data)

/-- `MemoryEngine._count_observations` (lines 960-968): counts observation
bullets over every line of the whole file. -/
def count_observations (content : Str) : ℕ :=
  (splitLines content).countP isObservationLine

/-- `MemoryEngine.REFINEMENT_THRESHOLD` (line 958). -/
def REFINEMENT_THRESHOLD : ℕ := 7

/-- `MemoryEngine.CONSOLIDATION_SIZE_THRESHOLD` (line 1126). -/
def CONSOLIDATION_SIZE_THRESHOLD : ℕ := 2048

/-- `MemoryEngine.CONSOLIDATION_OBSERVATION_THRESHOLD` (line 1127). -/
def CONSOLIDATION_OBSERVATION_THRESHOLD : ℕ := 10

/-- `len(content.encode('utf-8'))` (line 1152). -/
def utf8Len (s : Str) : ℕ := (s.map Char.utf8Size).sum

/-- The strategy decision of `MemoryEngine.apply_memory_update` (line 1018):
Gemini refinement is used exactly when the file-wide observation count
exceeds `REFINEMENT_THRESHOLD`. -/
def uses_gemini_refinement (content : Str) : Bool :=
  REFINEMENT_THRESHOLD < count_observations content

/-- The trigger of `MemoryEngine.consolidate_memory` (lines 1152-1159):
byte size above `CONSOLIDATION_SIZE_THRESHOLD` or file-wide observation
count above `CONSOLIDATION_OBSERVATION_THRESHOLD`. -/
def needs_consolidation (content : Str) : Bool :=
  CONSOLIDATION_SIZE_THRESHOLD < utf8Len content ||
    CONSOLIDATION_OBSERVATION_THRESHOLD < count_observations content

/-- The per-section observation count used inside `_simple_append_update`
(lines 925-935): walks the lines, counting `- ` bullets (placeholder
excluded) strictly inside the `## Observed Behaviors` section, stopping
at the next `##` header. -/
def countBehaviorObs : List Str → Bool → ℕ
  | [], _ => 0
  | line :: rest, inSec =>
    if containsSub line "## Observed Behaviors".data then
      countBehaviorObs rest true
    else if strStarts "##".data line && inSec then 0
    else if inSec && strStarts "- ".data (trimL line) &&
        !containsSub line PLACEHOLDER then
      1 + countBehaviorObs rest inSec
    else countBehaviorObs rest inSec

/-- The insertion loop of `_simple_append_update` (lines 941-950): the new
bullet is inserted right after the first `## Observed Behaviors` header. -/
def insertObsAfterHeader (obs : Str) : List Str → Bool → List Str
  | [], _ => []
  | line :: rest, appended =>
    if containsSub line "## Observed Behaviors".data && !appended then
      line :: ("- ".data ++ obs) :: insertObsAfterHeader obs rest true
    else line :: insertObsAfterHeader obs rest appended

/-- `MemoryEngine._simple_append_update` (lines 905-955).  Note that the
placeholder branch uses Python's `str.replace`, which replaces every
occurrence of `- [No patterns recorded yet]`, not only the first. -/
def simple_append_update (current_content new_observation : Str) : Str :=
  if containsSub current_content PLACEHOLDER then
    replaceAll current_content ("- ".data ++ PLACEHOLDER)
      ("- ".data ++ new_observation)
  else
    let behavior_count := countBehaviorObs (splitLines current_content) false
    if behavior_count < 5 then
      if containsSub current_content "## Observed Behaviors".data then
        joinLines
          (insertObsAfterHeader new_observation
            (splitLines current_content) false)
      else
        current_content ++ "\n\n## Observed Behaviors\n- ".data ++
          new_observation ++ "\n".data
    else current_content

/-!
The four memory-file templates from `MEMORY_TEMPLATES` in `app.py`
(lines 640-697), with the timestamp interpolated as in `reset_memory`
(line 727).
-/

def budgetTemplate (ts : Str) : Str :=
  ("# Budget Constraints\n\n## Monthly Spending Limits\n" ++
   "- Discretionary: $500/month\n\n## Current Month\n- Spent: $0\n" ++
   "- Remaining: $500\n\n## Last Updated\n- ").data ++ ts ++ "\n".data

def goalsTemplate (ts : Str) : Str :=
  ("# Long-term Goals\n\n## Financial Goals\n" ++
   "- [ ] Set your savings goals here\n\n" ++
   "## Personal Goals & Aspirations\n- [ ] Reduce impulse purchases\n" ++
   "- [ ] Build better spending habits\n\n## Last Updated\n- ").data ++
  ts ++ "\n".data

def behaviorTemplate (ts : Str) : Str :=
  ("# Spending Patterns\n\n## Observed Behaviors\n" ++
   "- [No patterns recorded yet]\n\n## Spending Patterns\n" ++
   "- [No patterns recorded yet]\n\n## High-Risk Triggers\n" ++
   "- Late night shopping (after 11 PM)\n- Flash sale websites\n\n" ++
   "## Positive Patterns\n- [None recorded yet]\n\n## Last Updated\n- ").data ++
  ts ++ "\n".data

def stateTemplate (ts : Str) : Str :=
  ("# Current Financial State\n\n## Financial Overview\n" ++
   "- Dedicated savings for fun purchases: $[AMOUNT]\n" ++
   "- Savings Account: $[AMOUNT]\n- Checking Account: $[AMOUNT]\n" ++
   "- Monthly Income: $[AMOUNT]\n\n## Recent Changes\n" ++
   "- [No recent changes]\n\n## Last Updated\n- ").data ++ ts ++ "\n".data

/-- A concrete timestamp used by concrete evaluations below. -/
def ts0 : Str := "2026-01-01 00:00:00".data

/-- A concrete observation string used by concrete evaluations below. -/
def obs0 : Str := "User shops at night".data


/-!
## LLM gateway: `MemoryEngine._call_gemini_api` (`memory.py` lines 240-356)

The loop `for attempt, delay in enumerate(delays)` is modelled as
recursion over the list of remaining backoff delays; the server's
behaviour on each HTTP request is scripted as a list of
`ServerResponse`s, consumed one per request.  The second component of
the result is the trace of `asyncio.sleep` durations, in order.
-/

/-- The parsed JSON verdict returned by the LLM (fields may be absent). -/
structure LLMVerdictJson where
  impulse_score : Option ℚ
  confidence : Option ℚ
  reasoning : Option String
  intervention_action : Option String
  memory_update : Option String
deriving DecidableEq

/-- The `reason` field of the ErrorInfo detail in a 403 response body
(lines 296-313). -/
inductive Http403Reason where
  | SERVICE_DISABLED (activationUrl : String)
  | ACCESS_TOKEN_SCOPE_INSUFFICIENT
  | PERMISSION_DENIED
  | other (message : String)
deriving DecidableEq

/-- One scripted HTTP exchange with the Vertex AI endpoint. -/
inductive ServerResponse where
  | rateLimited (retryAfter : Option ℕ)
  | forbidden (reason : Http403Reason)
  | ok (verdict : LLMVerdictJson)
  | otherFailure (message : String)
deriving DecidableEq

/-- The errors `_call_gemini_api` can raise.  The 403 branch raises
`ValueError`s whose messages (lines 299-319) distinguish the four
error reasons; `exhausted` is the final
`Exception("Failed to call Vertex AI API")` of line 356. -/
inductive ApiError where
  | serviceDisabled (activationUrl : String)
  | insufficientScope
  | permissionDenied
  | forbiddenGeneric (message : String)
  | transport (message : String)
  | exhausted
deriving DecidableEq

/-- The `str(e)` message of each error, as built at lines 299-319. -/
def apiErrorMessage : ApiError → String
  | .serviceDisabled url =>
      "Generative Language API is not enabled. Enable it at: " ++ url
  | .insufficientScope =>
      "Service account has insufficient permissions. Ensure it has " ++
      "'Vertex AI User' or 'Generative Language API User' role."
  | .permissionDenied =>
      "Permission denied. Check service account permissions in IAM."
  | .forbiddenGeneric m =>
      "403 Forbidden: " ++ m ++
      ". Check service account permissions and API enablement."
  | .transport m => m
  | .exhausted => "Failed to call Vertex AI API"

/-- The typed error raised for each 403 reason (lines 296-319). -/
def forbiddenError : Http403Reason → ApiError
  | .SERVICE_DISABLED url => .serviceDisabled url
  | .ACCESS_TOKEN_SCOPE_INSUFFICIENT => .insufficientScope
  | .PERMISSION_DENIED => .permissionDenied
  | .other m => .forbiddenGeneric m

/-- `delays = [2, 5, 10, 20, 40]` (line 266). -/
def RETRY_DELAYS : List ℕ := [2, 5, 10, 20, 40]

/-- The body of the retry loop of `_call_gemini_api` (lines 270-356).
`delays` is the list of backoff delays not yet attempted, `responses`
the scripted server behaviour, `lastExc` the `last_exception` local.

* On a 429 the code sleeps `Retry-After` (else `delay * 2`) and executes
  `continue`, which moves the `for` loop to the *next* `(attempt, delay)`
  pair: the attempt is consumed (lines 284-288).
* A 403 raises a `ValueError` (lines 291-319), which the blanket
  `except` at line 349 catches: unless this was the final attempt the
  code sleeps `delay` and retries.
* Transport errors, bad JSON and invalid response formats behave like
  the 403 `ValueError`s (lines 321-354).
* If the loop finishes without returning (only possible when the final
  attempt hit a 429), the code raises `last_exception` if set, else the
  generic exhaustion error (line 356).

An empty `responses` script (the server never answering at all) is a
modelling artefact and is mapped to the same exhaustion error. -/
def callLoop : List ℕ → List ServerResponse → Option ApiError →
    Except ApiError LLMVerdictJson × List ℕ
  | [], _, lastExc => (.error (lastExc.getD .exhausted), [])
  | _ :: _, [], lastExc => (.error (lastExc.getD .exhausted), [])
  | d :: rest, resp :: rs, lastExc =>
    match resp with
    | .rateLimited ra =>
      let out := callLoop rest rs lastExc
      (out.1, ra.getD (d * 2) :: out.2)
    | .ok v => (.ok v, [])
    | .forbidden reason =>
      match rest with
      | [] => (.error (forbiddenError reason), [])
      | _ :: _ =>
        let out := callLoop rest rs (some (forbiddenError reason))
        (out.1, d :: out.2)
    | .otherFailure m =>
      match rest with
      | [] => (.error (.transport m), [])
      | _ :: _ =>
        let out := callLoop rest rs (some (.transport m))
        (out.1, d :: out.2)

/-- `MemoryEngine._call_gemini_api` against a scripted server: the call
result plus the trace of sleep durations. -/
def call_gemini_api (responses : List ServerResponse) :
    Except ApiError LLMVerdictJson × List ℕ :=
  callLoop RETRY_DELAYS responses none

/-!
## Reasoner: `MemoryEngine.reason_with_gemini` (`memory.py` lines 589-718)

The prompt-building inputs (purchase data, context snippets) do not
affect the returned verdict, only the prompt text sent to the LLM; the
gateway outcome is passed in as an `Except`.
-/

/-- The purchase fields used by the reasoner prompt. -/
structure PurchaseData where
  product : String
  cost : ℚ
  website : String
  system_hour : ℤ
deriving DecidableEq

/-- A retrieved memory snippet (`retrieve_context` output items). -/
structure Snippet where
  file : String
  sect : String
  content : String
deriving DecidableEq

/-- The validated verdict returned by `reason_with_gemini`. -/
structure Verdict where
  impulse_score : ℚ
  confidence : ℚ
  reasoning : String
  intervention_action : String
  memory_update : Option String
deriving DecidableEq

/-- `max(0.0, min(1.0, x))`, the clamp used throughout the backend. -/
def clampQ (x : ℚ) : ℚ := max 0 (min 1 x)

/-- `MemoryEngine.reason_with_gemini` (lines 589-718): on a gateway
success, validate and clamp the fields (lines 690-705); on any raised
error, return the fallback verdict of lines 709-718. -/
def reason_with_gemini (p_impulse_fast : ℚ) (_purchase : PurchaseData)
    (_snippets : List Snippet)
    (gateway : Except ApiError LLMVerdictJson) : Verdict :=
  match gateway with
  | .ok r =>
    { impulse_score := clampQ (r.impulse_score.getD p_impulse_fast)
      confidence := clampQ (r.confidence.getD 0.5)
      reasoning := r.reasoning.getD "Unable to generate reasoning."
      intervention_action :=
        let action := (r.intervention_action.getD "NONE").toUpper
        if action = "COOLDOWN" ∨ action = "MIRROR" ∨ action = "PHRASE" ∨
            action = "NONE" then action else "NONE"
      memory_update :=
        match r.memory_update with
        | none => none
        | some s => if s.trim = "" then none else some s.trim }
  | .error e =>
    { impulse_score := p_impulse_fast
      confidence := 0.3
      reasoning :=
        "Fast Brain analysis only (Vertex AI unavailable: " ++
          apiErrorMessage e ++ ")"
      intervention_action := "NONE"
      memory_update := none }

/-!
## Chunker and vector index
(`MemoryEngine._chunk_markdown`, lines 361-437; the upsert step of
`MemoryEngine.apply_memory_update`, lines 1066-1104)
-/

/-- `MemoryEngine.MAX_CHUNK_SIZE` (line 359). -/
def MAX_CHUNK_SIZE : ℕ := 500

/-- A chunk as produced by `_chunk_markdown`. -/
structure Chunk where
  content : Str
  file : Str
  sect : Str
deriving DecidableEq

/-- Python's `str(n)` for a natural number. -/
def natToStr (n : ℕ) : Str := Nat.toDigits 10 n

/-- The ` (part n)` suffix of lines 405 and 417. -/
def partSuffix (n : ℕ) : Str := " (part ".data ++ natToStr n ++ ")".data

/-- The sub-chunk splitting loop of `add_chunk` (lines 393-418):
accumulates lines (reversed) while the running length stays within
`MAX_CHUNK_SIZE`, flushing a ` (part n)` chunk when it would not. -/
def partsLoop (fileName sectName : Str) :
    List Str → List Str → ℕ → ℕ → List Chunk
  | [], subChunk, _, partNum =>
    if subChunk ≠ [] then
      [{ content := trimL (joinLines subChunk.reverse), file := fileName,
         sect := if partNum > 1 then sectName ++ partSuffix partNum
                 else sectName }]
    else []
  | line :: rest, subChunk, subLen, partNum =>
    let lineLen := line.length + 1
    if MAX_CHUNK_SIZE < subLen + lineLen ∧ subChunk ≠ [] then
      { content := trimL (joinLines subChunk.reverse), file := fileName,
        sect := sectName ++ partSuffix partNum } ::
        partsLoop fileName sectName rest [line] lineLen (partNum + 1)
    else
      partsLoop fileName sectName rest (line :: subChunk) (subLen + lineLen)
        partNum

/-- `add_chunk` (lines 380-418): strip, drop if empty, emit one chunk if
within `MAX_CHUNK_SIZE`, else split into parts. -/
def addChunk (fileName sectName text : Str) : List Chunk :=
  let t := trimL text
  if t = [] then []
  else if t.length ≤ MAX_CHUNK_SIZE then
    [{ content := t, file := fileName, sect := sectName }]
  else partsLoop fileName sectName (splitLines t) [] 0 1

/-- Python's `line.lstrip('#')`. -/
def dropHashes : Str → Str
  | '#' :: r => dropHashes r
  | s => s

/-- The main line loop of `_chunk_markdown` (lines 420-435): `#`-prefixed
lines start a new section; body lines accumulate (reversed) into the
current chunk. -/
def chunkLines (fileName : Str) : List Str → List Str → Str → List Chunk
  | [], curChunk, curSect =>
    if curChunk ≠ [] then
      addChunk fileName curSect (joinLines curChunk.reverse)
    else []
  | line :: rest, curChunk, curSect =>
    if strStarts "#".data line then
      (if curChunk ≠ [] then
        addChunk fileName curSect (joinLines curChunk.reverse)
      else []) ++
        chunkLines fileName rest [] (trimL (dropHashes line))
    else chunkLines fileName rest (line :: curChunk) curSect

/-- `MemoryEngine._chunk_markdown` (lines 361-437). -/
def chunk_markdown (content fileName : Str) : List Chunk :=
  chunkLines fileName (splitLines content) [] "Introduction".data

/-- The vector index, keyed by chunk id (document text as value).  The
ChromaDB collection is the authoritative set keyed by `id`. -/
abbrev VectorIndex := List (Str × Str)

/-- Whether the index holds an entry under `id`. -/
def hasId : VectorIndex → Str → Bool
  | [], _ => false
  | p :: rest, id => if p.1 = id then true else hasId rest id

/-- The document stored under `id` (first match). -/
def idxLookup : VectorIndex → Str → Option Str
  | [], _ => none
  | p :: rest, id => if p.1 = id then some p.2 else idxLookup rest id

/-- ChromaDB `upsert` for a single id: replace the document under an
existing id, else insert it. -/
def upsertOne (idx : VectorIndex) (id doc : Str) : VectorIndex :=
  if hasId idx id then
    idx.map (fun p => if p.1 = id then (id, doc) else p)
  else idx ++ [(id, doc)]

/-- The stable chunk id `f"{md_file}_{i}"` (lines 481 and 1078). -/
def chunkId (file : Str) (i : ℕ) : Str := file ++ "_".data ++ natToStr i

/-- The `(chunk_id, document)` pairs prepared by `apply_memory_update`
(lines 1067-1084): the chunks of the new content, with ordinals
restarting at 0. -/
def chunkUpserts (file content : Str) : List (Str × Str) :=
  (chunk_markdown content file).enum.map
    (fun p => (chunkId file p.1, p.2.content))

/-- The ChromaDB update performed by `apply_memory_update` after a
successful file write (lines 1066-1104): upsert every chunk of the new
content.  No `delete` call is made for previously existing ids. -/
def apply_update_index (idx : VectorIndex) (file content : Str) :
    VectorIndex :=
  (chunkUpserts file content).foldl (fun a p => upsertOne a p.1 p.2) idx

/-!
## Reset endpoint (`reset_memory` in `app.py`, lines 700-792)

The persisted-state directory is modelled as an association list from
entry names to entries (regular files with content, or directories).
-/

/-- A directory entry: a regular file with its content, or a directory. -/
inductive FsEntry where
  | file (content : Str)
  | dir
deriving DecidableEq

def FsEntry.isFile : FsEntry → Bool
  | .file _ => true
  | .dir => false

/-- The persisted-state directory. -/
abbrev MemDir := List (Str × FsEntry)

/-- `open(path, 'w').write(content)`: replace the entry of that name. -/
def fsWrite (fs : MemDir) (name content : Str) : MemDir :=
  (name, .file content) :: fs.filter (fun p => p.1 != name)

/-- `MEMORY_TEMPLATES` (`app.py` lines 640-697), in source (dict) order,
with the timestamp interpolated (line 727). -/
def MEMORY_TEMPLATES (ts : Str) : List (Str × Str) :=
  [("Budget.md".data, budgetTemplate ts),
   ("Goals.md".data, goalsTemplate ts),
   ("Behavior.md".data, behaviorTemplate ts),
   ("State.md".data, stateTemplate ts)]

/-- The four memory-file names. -/
def memoryFileNames : List Str :=
  ["Budget.md".data, "Goals.md".data, "Behavior.md".data, "State.md".data]

/-- Step 1 of `reset_memory` (lines 722-742): overwrite the four
template files. -/
def resetWriteTemplates (fs : MemDir) (ts : Str) : MemDir :=
  (MEMORY_TEMPLATES ts).foldl (fun a p => fsWrite a p.1 p.2) fs

/-- The UUID-named-directory test of line 759:
`len(item) == 36 and item.count('-') == 4`. -/
def isUuidDirName (name : Str) : Bool :=
  name.length == 36 && name.count '-' == 4

/-- `reset_memory` (`app.py` lines 700-792): rewrite the four templates,
delete `chroma.sqlite3` if present (a regular file; `os.remove` on a
directory fails and is only logged), delete every directory whose name
looks like a UUID, and return `files_reset` (one per template written,
always 4). -/
def reset_memory (fs : MemDir) (ts : Str) : MemDir × ℕ :=
  let fs1 := resetWriteTemplates fs ts
  let fs2 := fs1.filter
    (fun p => !(p.1 == "chroma.sqlite3".data && p.2.isFile))
  let fs3 := fs2.filter (fun p => !(!p.2.isFile && isUuidDirName p.1))
  (fs3, (MEMORY_TEMPLATES ts).length)

/-- A concrete successful verdict used by the gateway claims. -/
def vOk : LLMVerdictJson :=
  { impulse_score := some 0.5, confidence := some 0.9,
    reasoning := some "ok", intervention_action := some "NONE",
    memory_update := none }

/-!
## Scoring kernel (`ImpulseInferenceEngine`, `inference_engine.py`)

Floats are modelled as real numbers; `np.exp` as `Real.exp`.
-/

/-- A per-feature baseline `(mean, std)` pair. -/
structure Baseline where
  mean : ℝ
  std : ℝ

/-- The baseline dictionary validated by `__init__` (lines 117-142). -/
structure BaselineData where
  heart_rate : Baseline
  respiration_rate : Baseline
  scroll_velocity : Baseline
  click_rate : Baseline
  time_on_site : Baseline

/-- The `current_data` dictionary consumed by `calculate_p_impulse`
(lines 266-274), with every key present. -/
structure CurrentData where
  heart_rate : ℝ
  respiration_rate : ℝ
  emotion_arousal : ℝ
  click_rate : ℝ
  scroll_velocity_peak : ℝ
  time_to_cart : ℝ
  system_time : ℤ
  website_name : String

/-- `_calculate_z_score` (lines 144-158). -/
noncomputable def calculate_z_score (value mean std : ℝ) : ℝ :=
  if std = 0 then 0 else (value - mean) / std

/-- `SIGMOID_K` (line 75). -/
noncomputable def SIGMOID_K : ℝ := 2.0

/-- `_sigmoid_likelihood` with the default steepness (lines 160-173). -/
noncomputable def sigmoid_likelihood (z_score : ℝ) : ℝ :=
  1.0 / (1.0 + Real.exp (-SIGMOID_K * z_score))

/-- `_get_late_night_multiplier` (lines 175-188). -/
noncomputable def late_night_multiplier (hour : ℤ) : ℝ :=
  if 1 ≤ hour ∧ hour ≤ 5 then
    1.0 + 0.5 * (1 - |(hour : ℝ) - 3| / 2)
  else 1.0

/-- `strContainsS s pat` is Python's `pat in s` on `String`s. -/
def strContainsS (s pat : String) : Bool := containsSub s.data pat.data

/-- `WEBSITE_RISK_FACTORS` (lines 86-115), in dict insertion order. -/
noncomputable def WEBSITE_RISK_FACTORS : List (String × ℝ) :=
  [("gambling", 2.0), ("flash_sale", 2.0),
   ("amazon", 1.5), ("ebay", 1.5), ("temu", 1.5), ("shein", 1.5),
   ("aliexpress", 1.5),
   ("target", 1.0), ("walmart", 1.0), ("bestbuy", 1.0), ("costco", 1.0),
   ("wayfair", 1.0), ("macys", 1.0), ("kohls", 1.0), ("newegg", 1.0),
   ("zappos", 1.0), ("nike", 1.0), ("adidas", 1.0), ("homedepot", 1.0),
   ("lowes", 1.0), ("ikea", 1.0), ("etsy", 1.0),
   ("educational", 0.5), ("nonprofit", 0.5)]

/-- `gambling_keywords` (line 208). -/
def GAMBLING_KEYWORDS : List String :=
  ["casino", "bet", "poker", "gambling", "lottery"]

/-- `flash_sale_keywords` (line 213). -/
def FLASH_SALE_KEYWORDS : List String :=
  ["flash", "limited time", "sale ends", "countdown"]

/-- `edu_keywords` (line 218). -/
def EDU_KEYWORDS : List String :=
  ["edu", "university", "school", "course", "learn"]

/-- The `for key, factor in ...: if key in website_lower: return factor`
scan of lines 203-205. -/
noncomputable def scanFactors (lower : String) :
    List (String × ℝ) → Option ℝ
  | [] => none
  | (k, f) :: rest =>
    if strContainsS lower k then some f else scanFactors lower rest

/-- `_get_website_risk_factor` (lines 190-223): lower-case the name,
scan the risk table in insertion order (first match wins), then try the
gambling, flash-sale and educational keyword groups; default 1.0. -/
noncomputable def website_risk_factor (website_name : String) : ℝ :=
  let lower := website_name.toLower
  match scanFactors lower WEBSITE_RISK_FACTORS with
  | some f => f
  | none =>
    if GAMBLING_KEYWORDS.any (fun kw => strContainsS lower kw) then 2.0
    else if FLASH_SALE_KEYWORDS.any (fun kw => strContainsS lower kw) then
      2.0
    else if EDU_KEYWORDS.any (fun kw => strContainsS lower kw) then 0.5
    else 1.0

/-- `_calculate_ttc_likelihood` (lines 225-245). -/
noncomputable def ttc_likelihood (time_to_cart : ℝ) : ℝ :=
  if time_to_cart ≤ 0 then 1.0
  else 1.0 - min (time_to_cart / 300.0) 1.0

/-- A weight profile (lines 31-58). -/
structure Weights where
  heart_rate : ℝ
  respiration_rate : ℝ
  scroll_velocity : ℝ
  emotion_arousal : ℝ
  click_rate : ℝ
  time_to_cart : ℝ

/-- `BEHAVIOR_ONLY_WEIGHTS` (lines 31-38). -/
noncomputable def BEHAVIOR_ONLY_WEIGHTS : Weights :=
  { heart_rate := 0.03, respiration_rate := 0.03, scroll_velocity := 0.26,
    emotion_arousal := 0.34, click_rate := 0.17, time_to_cart := 0.17 }

/-- `FULL_BIOMETRIC_WEIGHTS` (lines 41-48). -/
noncomputable def FULL_BIOMETRIC_WEIGHTS : Weights :=
  { heart_rate := 0.15, respiration_rate := 0.15, scroll_velocity := 0.20,
    emotion_arousal := 0.20, click_rate := 0.15, time_to_cart := 0.15 }

/-- `USE_PLACEHOLDER_BIOMETRICS` (line 28). -/
def USE_PLACEHOLDER_BIOMETRICS : Bool := true

/-- `get_weights` (lines 61-66), also the `WEIGHTS` property. -/
noncomputable def get_weights : Weights :=
  if USE_PLACEHOLDER_BIOMETRICS then BEHAVIOR_ONLY_WEIGHTS
  else FULL_BIOMETRIC_WEIGHTS

/-- `max(0.0, min(1.0, x))` (lines 330 and 343). -/
noncomputable def clampR (x : ℝ) : ℝ := max 0 (min 1 x)

/-- The weighted likelihood combination of `calculate_p_impulse`
(lines 276-320). -/
noncomputable def weighted_likelihood (bd : BaselineData)
    (d : CurrentData) : ℝ :=
  get_weights.heart_rate *
      sigmoid_likelihood
        (calculate_z_score d.heart_rate bd.heart_rate.mean
          bd.heart_rate.std) +
    get_weights.respiration_rate *
      sigmoid_likelihood
        (calculate_z_score d.respiration_rate bd.respiration_rate.mean
          bd.respiration_rate.std) +
    get_weights.scroll_velocity *
      sigmoid_likelihood
        (calculate_z_score d.scroll_velocity_peak bd.scroll_velocity.mean
          bd.scroll_velocity.std) +
    get_weights.emotion_arousal * d.emotion_arousal +
    get_weights.click_rate *
      sigmoid_likelihood
        (calculate_z_score d.click_rate bd.click_rate.mean
          bd.click_rate.std) +
    get_weights.time_to_cart * ttc_likelihood d.time_to_cart

/-- The context-adjusted, clamped probability of lines 322-330. -/
noncomputable def adjusted_p (bd : BaselineData) (d : CurrentData) : ℝ :=
  clampR (weighted_likelihood bd d * late_night_multiplier d.system_time *
    website_risk_factor d.website_name)

/-- The Bayesian update of lines 332-343. -/
noncomputable def bayes_update (prior_p a : ℝ) : ℝ :=
  if a * prior_p + (1 - a) * (1 - prior_p) = 0 then 0
  else clampR (a * prior_p / (a * prior_p + (1 - a) * (1 - prior_p)))

/-- `ImpulseInferenceEngine.calculate_p_impulse` (lines 247-343). -/
noncomputable def calculate_p_impulse (bd : BaselineData) (prior_p : ℝ)
    (d : CurrentData) : ℝ :=
  bayes_update prior_p (adjusted_p bd d)

/-!
## Lemmas about the scoring kernel
-/

theorem clampR_nonneg (x : ℝ) : 0 ≤ clampR x := le_max_left 0 _

theorem clampR_le_one (x : ℝ) : clampR x ≤ 1 :=
  max_le (by norm_num) (min_le_left 1 x)

theorem clampR_mono {x y : ℝ} (h : x ≤ y) : clampR x ≤ clampR y :=
  max_le_max le_rfl (min_le_min le_rfl h)

theorem sigmoid_likelihood_mono {z₁ z₂ : ℝ} (h : z₁ ≤ z₂) :
    sigmoid_likelihood z₁ ≤ sigmoid_likelihood z₂ := by
  unfold sigmoid_likelihood SIGMOID_K
  have hexp : Real.exp (-2.0 * z₂) ≤ Real.exp (-2.0 * z₁) :=
    Real.exp_le_exp.mpr (by linarith)
  have hpos1 : (0 : ℝ) < 1.0 + Real.exp (-2.0 * z₁) := by positivity
  have hpos2 : (0 : ℝ) < 1.0 + Real.exp (-2.0 * z₂) := by positivity
  rw [div_le_div_iff₀ hpos1 hpos2]
  nlinarith

theorem calculate_z_score_mono {v₁ v₂ mean std : ℝ} (hstd : 0 ≤ std)
    (h : v₁ ≤ v₂) :
    calculate_z_score v₁ mean std ≤ calculate_z_score v₂ mean std := by
  unfold calculate_z_score
  by_cases h0 : std = 0
  · simp [h0]
  · have hpos : 0 < std := lt_of_le_of_ne hstd (Ne.symm h0)
    simp only [if_neg h0]
    gcongr

theorem ttc_likelihood_antitone {t₁ t₂ : ℝ} (h : t₁ ≤ t₂) :
    ttc_likelihood t₂ ≤ ttc_likelihood t₁ := by
  unfold ttc_likelihood
  by_cases h2 : t₂ ≤ 0
  · have h1 : t₁ ≤ 0 := le_trans h h2
    simp [h1, h2]
  · by_cases h1 : t₁ ≤ 0
    · simp only [if_pos h1, if_neg h2]
      have hmin : 0 ≤ min (t₂ / 300.0) 1.0 := by
        apply le_min
        · have : (0 : ℝ) < t₂ := lt_of_not_le h2
          positivity
        · norm_num
      linarith
    · simp only [if_neg h1, if_neg h2]
      have : min (t₁ / 300.0) 1.0 ≤ min (t₂ / 300.0) 1.0 := by
        apply min_le_min _ le_rfl
        gcongr
      linarith

theorem late_night_multiplier_nonneg (hour : ℤ) :
    0 ≤ late_night_multiplier hour := by
  unfold late_night_multiplier
  split_ifs with h
  · have hl : (1 : ℝ) ≤ (hour : ℝ) := by exact_mod_cast h.1
    have hu : (hour : ℝ) ≤ 5 := by exact_mod_cast h.2
    have habs : |(hour : ℝ) - 3| ≤ 2 := abs_le.mpr ⟨by linarith, by linarith⟩
    nlinarith
  · norm_num

theorem scanFactors_nonneg (lower : String) (tbl : List (String × ℝ))
    (htbl : ∀ p ∈ tbl, 0 ≤ p.2) :
    ∀ f, scanFactors lower tbl = some f → 0 ≤ f := by
  induction tbl with
  | nil => intro f hf; simp [scanFactors] at hf
  | cons p rest ih =>
    intro f hf
    obtain ⟨k, v⟩ := p
    rw [scanFactors] at hf
    split at hf
    · cases hf
      exact htbl _ (List.mem_cons_self _ _)
    · exact ih (fun q hq => htbl q (List.mem_cons_of_mem _ hq)) f hf

theorem website_risk_factors_table_nonneg :
    ∀ p ∈ WEBSITE_RISK_FACTORS, 0 ≤ p.2 := by
  intro p hp
  fin_cases hp <;> norm_num

theorem website_risk_factor_nonneg (name : String) :
    0 ≤ website_risk_factor name := by
  unfold website_risk_factor
  cases h : scanFactors name.toLower WEBSITE_RISK_FACTORS with
  | some f =>
    simp only [h]
    exact scanFactors_nonneg _ _ website_risk_factors_table_nonneg f h
  | none =>
    simp only [h]
    split_ifs <;> norm_num

theorem adjusted_p_nonneg (bd : BaselineData) (d : CurrentData) :
    0 ≤ adjusted_p bd d := clampR_nonneg _

theorem adjusted_p_le_one (bd : BaselineData) (d : CurrentData) :
    adjusted_p bd d ≤ 1 := clampR_le_one _

/-- The Bayesian update step is monotone in the adjusted probability,
for any prior in `[0, 1]` and adjusted probabilities in `[0, 1]`. -/
theorem bayes_update_mono {π₀ a₁ a₂ : ℝ} (hπ0 : 0 ≤ π₀) (hπ1 : π₀ ≤ 1)
    (ha0 : 0 ≤ a₁) (ha12 : a₁ ≤ a₂) (ha2 : a₂ ≤ 1) :
    bayes_update π₀ a₁ ≤ bayes_update π₀ a₂ := by
  unfold bayes_update
  have hd1 : 0 ≤ a₁ * π₀ + (1 - a₁) * (1 - π₀) :=
    add_nonneg (mul_nonneg ha0 hπ0)
      (mul_nonneg (by linarith) (by linarith))
  have hd2 : 0 ≤ a₂ * π₀ + (1 - a₂) * (1 - π₀) :=
    add_nonneg (mul_nonneg (by linarith) hπ0)
      (mul_nonneg (by linarith) (by linarith))
  by_cases h1 : a₁ * π₀ + (1 - a₁) * (1 - π₀) = 0
  · rw [if_pos h1]
    split_ifs
    · exact le_refl 0
    · exact clampR_nonneg _
  · have hpos1 : 0 < a₁ * π₀ + (1 - a₁) * (1 - π₀) :=
      lt_of_le_of_ne hd1 (Ne.symm h1)
    by_cases h2 : a₂ * π₀ + (1 - a₂) * (1 - π₀) = 0
    · rw [if_neg h1, if_pos h2]
      have hnum : a₁ * π₀ = 0 := by
        have haπ : a₂ * π₀ = 0 := by
          have hx : 0 ≤ a₂ * π₀ := mul_nonneg (by linarith) hπ0
          have hy : 0 ≤ (1 - a₂) * (1 - π₀) :=
            mul_nonneg (by linarith) (by linarith)
          linarith
        rcases mul_eq_zero.mp haπ with ha | hπ
        · have : a₁ = 0 := le_antisymm (ha ▸ ha12) ha0
          rw [this, zero_mul]
        · rw [hπ, mul_zero]
      rw [hnum, zero_div]
      unfold clampR
      norm_num
    · have hpos2 : 0 < a₂ * π₀ + (1 - a₂) * (1 - π₀) :=
        lt_of_le_of_ne hd2 (Ne.symm h2)
      rw [if_neg h1, if_neg h2]
      apply clampR_mono
      rw [div_le_div_iff₀ hpos1 hpos2]
      nlinarith [mul_nonneg (mul_nonneg hπ0 (by linarith : (0:ℝ) ≤ 1 - π₀))
        (by linarith : (0:ℝ) ≤ a₂ - a₁)]

theorem get_weights_eq : get_weights = BEHAVIOR_ONLY_WEIGHTS := by
  simp [get_weights, USE_PLACEHOLDER_BIOMETRICS]

theorem weighted_likelihood_scroll_mono (bd : BaselineData)
    (d : CurrentData) {v₁ v₂ : ℝ} (hstd : 0 ≤ bd.scroll_velocity.std)
    (h : v₁ ≤ v₂) :
    weighted_likelihood bd { d with scroll_velocity_peak := v₁ } ≤
      weighted_likelihood bd { d with scroll_velocity_peak := v₂ } := by
  unfold weighted_likelihood
  dsimp only
  have hsig :
      sigmoid_likelihood
          (calculate_z_score v₁ bd.scroll_velocity.mean
            bd.scroll_velocity.std) ≤
        sigmoid_likelihood
          (calculate_z_score v₂ bd.scroll_velocity.mean
            bd.scroll_velocity.std) :=
    sigmoid_likelihood_mono (calculate_z_score_mono hstd h)
  have hw : (0 : ℝ) ≤ get_weights.scroll_velocity := by
    rw [get_weights_eq]
    norm_num [BEHAVIOR_ONLY_WEIGHTS]
  have := mul_le_mul_of_nonneg_left hsig hw
  linarith

theorem weighted_likelihood_ttc_antitone (bd : BaselineData)
    (d : CurrentData) {t₁ t₂ : ℝ} (h : t₁ ≤ t₂) :
    weighted_likelihood bd { d with time_to_cart := t₂ } ≤
      weighted_likelihood bd { d with time_to_cart := t₁ } := by
  unfold weighted_likelihood
  dsimp only
  have httc : ttc_likelihood t₂ ≤ ttc_likelihood t₁ :=
    ttc_likelihood_antitone h
  have hw : (0 : ℝ) ≤ get_weights.time_to_cart := by
    rw [get_weights_eq]
    norm_num [BEHAVIOR_ONLY_WEIGHTS]
  have := mul_le_mul_of_nonneg_left httc hw
  linarith

theorem adjusted_p_mono_of_weighted {bd : BaselineData}
    {d₁ d₂ : CurrentData}
    (hw : weighted_likelihood bd d₁ ≤ weighted_likelihood bd d₂)
    (hhour : d₁.system_time = d₂.system_time)
    (hsite : d₁.website_name = d₂.website_name) :
    adjusted_p bd d₁ ≤ adjusted_p bd d₂ := by
  unfold adjusted_p
  rw [hhour, hsite]
  apply clampR_mono
  have hlate : 0 ≤ late_night_multiplier d₂.system_time :=
    late_night_multiplier_nonneg _
  have hrisk : 0 ≤ website_risk_factor d₂.website_name :=
    website_risk_factor_nonneg _
  exact mul_le_mul_of_nonneg_right
    (mul_le_mul_of_nonneg_right hw hlate) hrisk

/-!
## Lemmas about the file-system model and the vector-index model
-/

theorem mem_fsWrite {fs : MemDir} {n m c : Str} {e : FsEntry} :
    (n, e) ∈ fsWrite fs m c ↔
      (n = m ∧ e = .file c) ∨ ((n, e) ∈ fs ∧ n ≠ m) := by
  simp only [fsWrite, List.mem_cons, List.mem_filter, Prod.mk.injEq,
    bne_iff_ne, ne_eq]

theorem mem_fsWrite_self {fs : MemDir} {m c : Str} {e : FsEntry} :
    (m, e) ∈ fsWrite fs m c ↔ e = .file c := by
  rw [mem_fsWrite]
  simp

theorem mem_fsWrite_of_ne {fs : MemDir} {n m c : Str} {e : FsEntry}
    (hne : n ≠ m) : (n, e) ∈ fsWrite fs m c ↔ (n, e) ∈ fs := by
  rw [mem_fsWrite]
  simp [hne]

theorem upsertOne_mem_of_ne {idx : VectorIndex} {id doc : Str}
    {p : Str × Str} (hp : p ∈ idx) (hne : p.1 ≠ id) :
    p ∈ upsertOne idx id doc := by
  unfold upsertOne
  split_ifs with h
  · exact List.mem_map.mpr ⟨p, hp, by simp [hne]⟩
  · exact List.mem_append_left _ hp

theorem foldl_upsert_mem {L : List (Str × Str)} {p : Str × Str} :
    ∀ {idx : VectorIndex}, p ∈ idx → p.1 ∉ L.map Prod.fst →
      p ∈ L.foldl (fun a q => upsertOne a q.1 q.2) idx := by
  induction L with
  | nil => intro idx hp _; exact hp
  | cons q rest ih =>
    intro idx hp hnotin
    simp only [List.map_cons, List.mem_cons, not_or] at hnotin
    exact ih (upsertOne_mem_of_ne hp hnotin.1) (by simpa using hnotin.2)

theorem idxLookup_mapReplace_self (id doc : Str) :
    ∀ l : VectorIndex, hasId l id = true →
      idxLookup (l.map (fun p => if p.1 = id then (id, doc) else p)) id =
        some doc := by
  intro l
  induction l with
  | nil => intro h; simp [hasId] at h
  | cons q rest ih =>
    intro h
    by_cases hq : q.1 = id
    · simp [List.map_cons, if_pos hq, idxLookup]
    · rw [hasId, if_neg hq] at h
      simp only [List.map_cons, if_neg hq, idxLookup]
      exact ih h

theorem idxLookup_appendNew_self (l : VectorIndex) (id doc : Str) :
    hasId l id = false →
      idxLookup (l ++ [(id, doc)]) id = some doc := by
  induction l with
  | nil => intro _; simp [idxLookup]
  | cons q rest ih =>
    intro h
    rw [hasId] at h
    by_cases hq : q.1 = id
    · rw [if_pos hq] at h
      cases h
    · rw [if_neg hq] at h
      rw [List.cons_append, idxLookup, if_neg hq]
      exact ih h

theorem idxLookup_upsertOne_self (idx : VectorIndex) (id doc : Str) :
    idxLookup (upsertOne idx id doc) id = some doc := by
  unfold upsertOne
  split_ifs with h
  · exact idxLookup_mapReplace_self id doc idx h
  · exact idxLookup_appendNew_self idx id doc (Bool.eq_false_iff.mpr h)

theorem idxLookup_mapReplace_ne {id id' : Str} (doc : Str)
    (hne : id' ≠ id) (l : VectorIndex) :
    idxLookup (l.map (fun p => if p.1 = id then (id, doc) else p)) id' =
      idxLookup l id' := by
  induction l with
  | nil => rfl
  | cons q rest ih =>
    by_cases hq : q.1 = id
    · have h1 : ¬(id : Str) = id' := fun he => hne he.symm
      have h2 : ¬q.1 = id' := by rw [hq]; exact h1
      simp only [List.map_cons, if_pos hq, idxLookup]
      rw [if_neg h1, if_neg h2]
      exact ih
    · simp only [List.map_cons, if_neg hq, idxLookup]
      by_cases hq' : q.1 = id'
      · rw [if_pos hq', if_pos hq']
      · rw [if_neg hq', if_neg hq']
        exact ih

theorem idxLookup_appendNew_ne {id id' : Str} (doc : Str)
    (hne : id' ≠ id) (l : VectorIndex) :
    idxLookup (l ++ [(id, doc)]) id' = idxLookup l id' := by
  induction l with
  | nil =>
    have h1 : ¬(id : Str) = id' := fun he => hne he.symm
    simp [idxLookup, h1]
  | cons q rest ih =>
    rw [List.cons_append, idxLookup, idxLookup]
    by_cases hq : q.1 = id'
    · rw [if_pos hq, if_pos hq]
    · rw [if_neg hq, if_neg hq]
      exact ih

theorem idxLookup_upsertOne_ne (idx : VectorIndex) {id id' : Str}
    (doc : Str) (hne : id' ≠ id) :
    idxLookup (upsertOne idx id doc) id' = idxLookup idx id' := by
  unfold upsertOne
  split_ifs
  · exact idxLookup_mapReplace_ne doc hne idx
  · exact idxLookup_appendNew_ne doc hne idx

theorem foldl_upsert_lookup_notin {L : List (Str × Str)} {id' : Str} :
    ∀ {idx : VectorIndex}, id' ∉ L.map Prod.fst →
      idxLookup (L.foldl (fun a q => upsertOne a q.1 q.2) idx) id' =
        idxLookup idx id' := by
  induction L with
  | nil => intro idx _; rfl
  | cons q rest ih =>
    intro idx hnotin
    simp only [List.map_cons, List.mem_cons, not_or] at hnotin
    rw [List.foldl_cons, ih (by simpa using hnotin.2),
      idxLookup_upsertOne_ne _ _ hnotin.1]

theorem foldl_upsert_lookup_mem {L : List (Str × Str)}
    (hnd : (L.map Prod.fst).Nodup) :
    ∀ p ∈ L, ∀ idx : VectorIndex,
      idxLookup (L.foldl (fun a q => upsertOne a q.1 q.2) idx) p.1 =
        some p.2 := by
  induction L with
  | nil => intro p hp; exact absurd hp (List.not_mem_nil p)
  | cons q rest ih =>
    intro p hp idx
    rcases List.mem_cons.mp hp with rfl | hp'
    · rw [List.foldl_cons,
        foldl_upsert_lookup_notin (by
          simpa using (List.nodup_cons.mp hnd).1),
        idxLookup_upsertOne_self]
    · exact ih (List.nodup_cons.mp hnd).2 p hp' _

theorem mem_resetWriteTemplates_of_notin {fs : MemDir} {ts n : Str}
    {e : FsEntry} (h : n ∉ memoryFileNames) :
    (n, e) ∈ resetWriteTemplates fs ts ↔ (n, e) ∈ fs := by
  have h1 : n ≠ "Budget.md".data := fun he => h (by rw [he]; decide)
  have h2 : n ≠ "Goals.md".data := fun he => h (by rw [he]; decide)
  have h3 : n ≠ "Behavior.md".data := fun he => h (by rw [he]; decide)
  have h4 : n ≠ "State.md".data := fun he => h (by rw [he]; decide)
  rw [show resetWriteTemplates fs ts =
      fsWrite (fsWrite (fsWrite (fsWrite fs "Budget.md".data
        (budgetTemplate ts)) "Goals.md".data (goalsTemplate ts))
        "Behavior.md".data (behaviorTemplate ts)) "State.md".data
        (stateTemplate ts) from rfl,
    mem_fsWrite_of_ne h4, mem_fsWrite_of_ne h3, mem_fsWrite_of_ne h2,
    mem_fsWrite_of_ne h1]

/-!
## The claims
-/

/-- Claim C1 (code bug): the claim states that the intervention mapping
sends `p < 0.3` to NONE, `0.3 ≤ p < 0.6` to MIRROR, `0.6 ≤ p < 0.85` to
COOLDOWN and `p ≥ 0.85` to PHRASE.  The code's `get_intervention_level`
instead returns the legacy names NONE/NUDGE/CHALLENGE/LOCKOUT with the
upper threshold at 0.8 — contradicting the repository's own tests
(`test_inference_engine.py::test_intervention_mirror` expects `MIRROR`
at 0.3 and `COOLDOWN` at 0.84) and `app.py`'s comment "names now match"
(line 975).  This theorem evaluates the embedded code at the failing
inputs. -/
theorem c1_intervention_mapping_code_bug :
    get_intervention_level 0.3 = "NUDGE" ∧
    get_intervention_level 0.3 ≠ "MIRROR" ∧
    get_intervention_level 0.84 = "LOCKOUT" ∧
    get_intervention_level 0.84 ≠ "COOLDOWN" ∧
    get_intervention_level 0.7 = "CHALLENGE" ∧
    get_intervention_level 0.1 = "NONE" := by
  have e1 : get_intervention_level 0.3 = "NUDGE" := by
    norm_num [get_intervention_level, INTERVENTION_THRESHOLDS]
  have e2 : get_intervention_level 0.84 = "LOCKOUT" := by
    norm_num [get_intervention_level, INTERVENTION_THRESHOLDS]
  have e3 : get_intervention_level 0.7 = "CHALLENGE" := by
    norm_num [get_intervention_level, INTERVENTION_THRESHOLDS]
  have e4 : get_intervention_level 0.1 = "NONE" := by
    norm_num [get_intervention_level, INTERVENTION_THRESHOLDS]
  exact ⟨e1, by rw [e1]; decide, e2, by rw [e2]; decide, e3, e4⟩

/-- Claim C2 (confirmed): for every telemetry input, baseline data and
prior, `calculate_p_impulse` returns a (real, hence finite) value in the
closed interval `[0, 1]`: the code clamps the Bayesian update and maps a
vanishing denominator to 0. -/
theorem c2_p_impulse_bounded (bd : BaselineData) (prior_p : ℝ)
    (d : CurrentData) :
    0 ≤ calculate_p_impulse bd prior_p d ∧
      calculate_p_impulse bd prior_p d ≤ 1 := by
  unfold calculate_p_impulse bayes_update
  split_ifs
  · norm_num
  · exact ⟨clampR_nonneg _, clampR_le_one _⟩

set_option maxRecDepth 100000 in
/-- Claim C3 (corrected), counterexample: `_simple_append_update` uses
Python's `str.replace`, which replaces **every** occurrence of the
placeholder bullet, not only the first.  The repository's own
`Behavior.md` template contains the placeholder bullet twice, and
applying a simple append to it drops **both**: the placeholder count
falls by two and the observation count rises by two, contradicting the
claimed "exactly one". -/
theorem c3_counterexample :
    countSubstr (behaviorTemplate ts0) PLACEHOLDER = 2 ∧
    countSubstr (simple_append_update (behaviorTemplate ts0) obs0)
      PLACEHOLDER = 0 ∧
    count_observations (simple_append_update (behaviorTemplate ts0) obs0) =
      count_observations (behaviorTemplate ts0) + 2 :=
  ⟨by decide, by decide, by decide⟩

/-- The single-placeholder fixture used by the repository's own test
`test_memory_extended.py::test_replace_placeholder`. -/
def c3single : Str :=
  "# Behavior\n\n## Observed Behaviors\n- [No patterns recorded yet]\n".data

set_option maxRecDepth 100000 in
/-- Claim C3 (corrected), amended: whenever the file contains the
placeholder, a simple append replaces **every** occurrence of the
placeholder bullet (Python `str.replace` semantics); when the file
contains exactly one placeholder bullet and the observation is a single
marker-free line, the placeholder count drops by exactly one and the
observation count rises by exactly one. -/
theorem c3_amended :
    (∀ current obs : Str, containsSub current PLACEHOLDER = true →
      simple_append_update current obs =
        replaceAll current ("- ".data ++ PLACEHOLDER) ("- ".data ++ obs)) ∧
    (countSubstr c3single PLACEHOLDER = 1 ∧
     countSubstr (simple_append_update c3single obs0) PLACEHOLDER = 0 ∧
     count_observations (simple_append_update c3single obs0) =
       count_observations c3single + 1) := by
  constructor
  · intro current obs h
    unfold simple_append_update
    rw [if_pos h]
  · exact ⟨by decide, by decide, by decide⟩

set_option maxRecDepth 100000 in
/-- Witness for `c3_amended` at a concrete input. -/
theorem c3_amended_witness :
    containsSub c3single PLACEHOLDER = true ∧
    simple_append_update c3single obs0 =
      replaceAll c3single ("- ".data ++ PLACEHOLDER) ("- ".data ++ obs0) :=
  ⟨by decide, c3_amended.1 c3single obs0 (by decide)⟩

/-- Claim C4 (corrected), counterexample: the claim states a 429 retry
does not consume one of the five attempts, so a run with five 429
responses would still have all five attempts for the subsequent success.
In the code the `continue` advances the `for attempt, delay in
enumerate(delays)` loop, so each 429 **does** consume an attempt: five
429 responses exhaust the budget and the call raises even though the
server's next response would have succeeded. -/
theorem c4_counterexample :
    (call_gemini_api (List.replicate 5 (.rateLimited none) ++
      [.ok vOk])).1 = .error .exhausted ∧
    (call_gemini_api (List.replicate 5 (.rateLimited none) ++
      [.ok vOk])).1 ≠ .ok vOk :=
  ⟨rfl, fun h => nomatch h⟩

/-- Claim C4 (corrected), amended: on HTTP 429 the call sleeps for the
`Retry-After` header value if present, else twice the current backoff
delay, and then retries — but the retry consumes one of the five
attempts: four 429s before a success still succeed (sleeping
`[4, 10, 20, 40]`), while five 429s exhaust the budget and raise. -/
theorem c4_amended (v : LLMVerdictJson) (ra : ℕ) :
    call_gemini_api [.rateLimited (some ra), .ok v] = (.ok v, [ra]) ∧
    call_gemini_api (List.replicate 4 (.rateLimited none) ++ [.ok v]) =
      (.ok v, [4, 10, 20, 40]) ∧
    call_gemini_api (List.replicate 5 (.rateLimited none) ++ [.ok v]) =
      (.error .exhausted, [4, 10, 20, 40, 80]) :=
  ⟨rfl, rfl, rfl⟩

/-- Claim C5 (corrected), counterexample: the claim states that after a
403 typed error no further attempt is made.  In the code the 403
`ValueError` is caught by the blanket `except` clause of the retry loop:
with a 403 on the first attempt and a success on the second, the call
sleeps the first backoff delay and returns the success — a further
attempt was made after the 403. -/
theorem c5_counterexample :
    call_gemini_api
        [.forbidden (.SERVICE_DISABLED "https://console.example"),
         .ok vOk] =
      (.ok vOk, [2]) := rfl

/-- Claim C5 (corrected), amended: on HTTP 403 the call raises an error
that distinguishes ServiceDisabled, InsufficientScope, PermissionDenied
and Generic via the server's error-reason field (the four typed errors
are pairwise distinct), but the error is caught by the generic retry
handler: a non-final 403 is retried after sleeping the current delay
(consuming an attempt), and only a 403 on the final attempt propagates
to the caller. -/
theorem c5_amended (v : LLMVerdictJson) (reason : Http403Reason)
    (u m : String) :
    call_gemini_api (List.replicate 5 (.forbidden reason)) =
      (.error (forbiddenError reason), [2, 5, 10, 20]) ∧
    call_gemini_api [.forbidden reason, .ok v] = (.ok v, [2]) ∧
    (forbiddenError (.SERVICE_DISABLED u) = .serviceDisabled u ∧
     forbiddenError .ACCESS_TOKEN_SCOPE_INSUFFICIENT =
       .insufficientScope ∧
     forbiddenError .PERMISSION_DENIED = .permissionDenied ∧
     forbiddenError (.other m) = .forbiddenGeneric m) ∧
    (ApiError.serviceDisabled u ≠ .insufficientScope ∧
     ApiError.serviceDisabled u ≠ .permissionDenied ∧
     ApiError.serviceDisabled u ≠ .forbiddenGeneric m ∧
     ApiError.insufficientScope ≠ .permissionDenied ∧
     ApiError.insufficientScope ≠ .forbiddenGeneric m ∧
     ApiError.permissionDenied ≠ .forbiddenGeneric m) :=
  ⟨rfl, rfl, ⟨rfl, rfl, rfl, rfl⟩,
   ⟨fun h => ApiError.noConfusion h, fun h => ApiError.noConfusion h,
    fun h => ApiError.noConfusion h, fun h => ApiError.noConfusion h,
    fun h => ApiError.noConfusion h, fun h => ApiError.noConfusion h⟩⟩

/-- Claim C6 (confirmed): for every fast score, purchase data and
context snippets, if the gateway call raises any error the reasoner
returns the fallback verdict: `impulse_score` equal to the fast score,
confidence 0.3, a reasoning string naming the outage,
`intervention_action = "NONE"` and a null `memory_update`. -/
theorem c6_degraded_fallback (p : ℚ) (purchase : PurchaseData)
    (snippets : List Snippet) (e : ApiError) :
    reason_with_gemini p purchase snippets (.error e) =
      { impulse_score := p
        confidence := 0.3
        reasoning := "Fast Brain analysis only (Vertex AI unavailable: " ++
          apiErrorMessage e ++ ")"
        intervention_action := "NONE"
        memory_update := none } := rfl

/-- Claim C7 (confirmed): holding all other inputs (and the baselines,
with non-negative scroll-velocity std, and a prior in `[0,1]` — the
data-model type constraints) fixed, a higher `peak_scroll_velocity`
never lowers `calculate_p_impulse`, and a lower `time_to_cart` never
lowers it. -/
theorem c7_feature_monotonicity :
    (∀ (bd : BaselineData) (prior_p : ℝ) (d : CurrentData) (v₁ v₂ : ℝ),
      0 ≤ bd.scroll_velocity.std → 0 ≤ prior_p → prior_p ≤ 1 → v₁ ≤ v₂ →
      calculate_p_impulse bd prior_p { d with scroll_velocity_peak := v₁ } ≤
        calculate_p_impulse bd prior_p
          { d with scroll_velocity_peak := v₂ }) ∧
    (∀ (bd : BaselineData) (prior_p : ℝ) (d : CurrentData) (t₁ t₂ : ℝ),
      0 ≤ prior_p → prior_p ≤ 1 → t₁ ≤ t₂ →
      calculate_p_impulse bd prior_p { d with time_to_cart := t₂ } ≤
        calculate_p_impulse bd prior_p { d with time_to_cart := t₁ }) := by
  constructor
  · intro bd pr d v₁ v₂ hstd h0 h1 hv
    unfold calculate_p_impulse
    exact bayes_update_mono h0 h1 (adjusted_p_nonneg _ _)
      (adjusted_p_mono_of_weighted
        (weighted_likelihood_scroll_mono bd d hstd hv) rfl rfl)
      (adjusted_p_le_one _ _)
  · intro bd pr d t₁ t₂ h0 h1 ht
    unfold calculate_p_impulse
    exact bayes_update_mono h0 h1 (adjusted_p_nonneg _ _)
      (adjusted_p_mono_of_weighted
        (weighted_likelihood_ttc_antitone bd d ht) rfl rfl)
      (adjusted_p_le_one _ _)

/-- A concrete baseline for the C7 witness. -/
noncomputable def bd0 : BaselineData :=
  { heart_rate := { mean := 70, std := 10 }
    respiration_rate := { mean := 16, std := 4 }
    scroll_velocity := { mean := 1000, std := 500 }
    click_rate := { mean := 1, std := 1 }
    time_on_site := { mean := 120, std := 60 } }

/-- A concrete telemetry sample for the C7 witness. -/
noncomputable def d0 : CurrentData :=
  { heart_rate := 80, respiration_rate := 18, emotion_arousal := 0.5
    click_rate := 2, scroll_velocity_peak := 1500, time_to_cart := 45
    system_time := 14, website_name := "amazon.com" }

/-- Witness for `c7_feature_monotonicity` at concrete inputs. -/
theorem c7_feature_monotonicity_witness :
    calculate_p_impulse bd0 0.2 { d0 with scroll_velocity_peak := 100 } ≤
      calculate_p_impulse bd0 0.2
        { d0 with scroll_velocity_peak := 200 } ∧
    calculate_p_impulse bd0 0.2 { d0 with time_to_cart := 60 } ≤
      calculate_p_impulse bd0 0.2 { d0 with time_to_cart := 30 } :=
  ⟨c7_feature_monotonicity.1 bd0 0.2 d0 100 200
      (by norm_num [bd0]) (by norm_num) (by norm_num) (by norm_num),
   c7_feature_monotonicity.2 bd0 0.2 d0 30 60
      (by norm_num) (by norm_num) (by norm_num)⟩

/-- The starting directory state for the C8 counterexample: a stray
regular file that is none of the four memory files and none of the
vector store's artefacts. -/
def fs0 : MemDir := [("junk.txt".data, .file "x".data)]

set_option maxRecDepth 100000 in
/-- Claim C8 (corrected), counterexample: the claim states reset deletes
every entry that is not one of the four memory files.  The code only
deletes `chroma.sqlite3` and UUID-named directories: a stray file
`junk.txt` survives the reset. -/
theorem c8_counterexample :
    ("junk.txt".data, FsEntry.file "x".data) ∈ (reset_memory fs0 ts0).1 ∧
    "junk.txt".data ∉ memoryFileNames :=
  ⟨by decide, by decide⟩

/-- Claim C8 (corrected), amended: reset rewrites the four memory files
from their templates (any entry under one of the four names ends up
being exactly the template file) and returns `files_reset = 4`; of the
remaining entries it deletes exactly the regular file `chroma.sqlite3`
and the directories with 36-character, four-dash (UUID-shaped) names;
every other entry survives. -/
theorem c8_amended (fs : MemDir) (ts : Str) :
    (reset_memory fs ts).2 = 4 ∧
    (∀ e, (("Budget.md".data : Str), e) ∈ (reset_memory fs ts).1 ↔
      e = .file (budgetTemplate ts)) ∧
    (∀ e, (("Goals.md".data : Str), e) ∈ (reset_memory fs ts).1 ↔
      e = .file (goalsTemplate ts)) ∧
    (∀ e, (("Behavior.md".data : Str), e) ∈ (reset_memory fs ts).1 ↔
      e = .file (behaviorTemplate ts)) ∧
    (∀ e, (("State.md".data : Str), e) ∈ (reset_memory fs ts).1 ↔
      e = .file (stateTemplate ts)) ∧
    (∀ n e, (n, e) ∈ fs → n ∉ memoryFileNames →
      ((n, e) ∈ (reset_memory fs ts).1 ↔
        ¬(n = "chroma.sqlite3".data ∧ e.isFile = true) ∧
        ¬(e.isFile = false ∧ isUuidDirName n = true))) := by
  have hr : (reset_memory fs ts).1 =
      ((resetWriteTemplates fs ts).filter
        (fun p => !(p.1 == "chroma.sqlite3".data && p.2.isFile))).filter
        (fun p => !(!p.2.isFile && isUuidDirName p.1)) := rfl
  have hfs1 : resetWriteTemplates fs ts =
      fsWrite (fsWrite (fsWrite (fsWrite fs "Budget.md".data
        (budgetTemplate ts)) "Goals.md".data (goalsTemplate ts))
        "Behavior.md".data (behaviorTemplate ts)) "State.md".data
        (stateTemplate ts) := rfl
  have hkeyB : ∀ e, (("Budget.md".data : Str), e) ∈
      resetWriteTemplates fs ts ↔ e = .file (budgetTemplate ts) := by
    intro e
    rw [hfs1, mem_fsWrite_of_ne (by decide), mem_fsWrite_of_ne (by decide),
      mem_fsWrite_of_ne (by decide), mem_fsWrite_self]
  have hkeyG : ∀ e, (("Goals.md".data : Str), e) ∈
      resetWriteTemplates fs ts ↔ e = .file (goalsTemplate ts) := by
    intro e
    rw [hfs1, mem_fsWrite_of_ne (by decide), mem_fsWrite_of_ne (by decide),
      mem_fsWrite_self]
  have hkeyBe : ∀ e, (("Behavior.md".data : Str), e) ∈
      resetWriteTemplates fs ts ↔ e = .file (behaviorTemplate ts) := by
    intro e
    rw [hfs1, mem_fsWrite_of_ne (by decide), mem_fsWrite_self]
  have hkeySt : ∀ e, (("State.md".data : Str), e) ∈
      resetWriteTemplates fs ts ↔ e = .file (stateTemplate ts) := by
    intro e
    rw [hfs1, mem_fsWrite_self]
  have hpass : ∀ (n : Str) (c : Str), (n == "chroma.sqlite3".data) = false →
      ∀ hmem : (n, FsEntry.file c) ∈ resetWriteTemplates fs ts,
      (n, FsEntry.file c) ∈ (reset_memory fs ts).1 := by
    intro n c hch hmem
    rw [hr]
    refine List.mem_filter.mpr ⟨List.mem_filter.mpr ⟨hmem, ?_⟩, ?_⟩
    · simp [hch, FsEntry.isFile]
    · simp [FsEntry.isFile]
  refine ⟨rfl, ?_, ?_, ?_, ?_, ?_⟩
  · intro e
    constructor
    · intro hm
      exact (hkeyB e).mp (List.mem_filter.mp
        (List.mem_filter.mp (hr ▸ hm)).1).1
    · intro he
      subst he
      exact hpass _ _ (by decide) ((hkeyB _).mpr rfl)
  · intro e
    constructor
    · intro hm
      exact (hkeyG e).mp (List.mem_filter.mp
        (List.mem_filter.mp (hr ▸ hm)).1).1
    · intro he
      subst he
      exact hpass _ _ (by decide) ((hkeyG _).mpr rfl)
  · intro e
    constructor
    · intro hm
      exact (hkeyBe e).mp (List.mem_filter.mp
        (List.mem_filter.mp (hr ▸ hm)).1).1
    · intro he
      subst he
      exact hpass _ _ (by decide) ((hkeyBe _).mpr rfl)
  · intro e
    constructor
    · intro hm
      exact (hkeySt e).mp (List.mem_filter.mp
        (List.mem_filter.mp (hr ▸ hm)).1).1
    · intro he
      subst he
      exact hpass _ _ (by decide) ((hkeySt _).mpr rfl)
  · intro n e hmem hnot
    rw [hr, List.mem_filter, List.mem_filter,
      mem_resetWriteTemplates_of_notin hnot]
    cases e with
    | file c =>
      simp [FsEntry.isFile, hmem, beq_eq_false_iff_ne]
    | dir =>
      simp [FsEntry.isFile, hmem]

/-- Witness for `c8_amended` at a concrete directory state. -/
theorem c8_amended_witness :
    (reset_memory fs0 ts0).2 = 4 ∧
    ("junk.txt".data, FsEntry.file "x".data) ∈ (reset_memory fs0 ts0).1 ∧
    (("Budget.md".data : Str), FsEntry.file (budgetTemplate ts0)) ∈
      (reset_memory fs0 ts0).1 :=
  ⟨(c8_amended fs0 ts0).1,
   ((c8_amended fs0 ts0).2.2.2.2.2 "junk.txt".data
      (FsEntry.file "x".data) (by decide) (by decide)).mpr (by decide),
   ((c8_amended fs0 ts0).2.1 (FsEntry.file (budgetTemplate ts0))).mpr rfl⟩

set_option maxRecDepth 100000 in
/-- Claim C9 (corrected), counterexample: the claim states that after a
memory-update upsert the index's chunk set for the file is exactly the
chunks of the current content.  The code only upserts and never deletes:
re-chunking `Behavior.md` from two chunks down to one leaves the stale
chunk `Behavior.md_1` (content `bar`) in the index. -/
theorem c9_counterexample :
    apply_update_index
        (apply_update_index [] "Behavior.md".data "# A\nfoo\n# B\nbar".data)
        "Behavior.md".data "# A\nbaz".data =
      [("Behavior.md_0".data, "baz".data),
       ("Behavior.md_1".data, "bar".data)] ∧
    (chunk_markdown "# A\nbaz".data "Behavior.md".data).length = 1 :=
  ⟨by decide, by decide⟩

/-- Claim C9 (corrected), amended: after the upsert, every chunk of the
file's current content is in the index under its stable id
`<file>_<ordinal>`, and every pre-existing entry whose id is not among
the new ids — including stale chunks of the same file with higher
ordinals — is preserved unchanged (until the next full re-index). -/
theorem c9_amended (idx : VectorIndex) (file content : Str)
    (hnd : ((chunkUpserts file content).map Prod.fst).Nodup) :
    (∀ p ∈ chunkUpserts file content,
      idxLookup (apply_update_index idx file content) p.1 = some p.2) ∧
    (∀ q ∈ idx, q.1 ∉ (chunkUpserts file content).map Prod.fst →
      q ∈ apply_update_index idx file content) := by
  constructor
  · intro p hp
    exact foldl_upsert_lookup_mem hnd p hp idx
  · intro q hq hnotin
    exact foldl_upsert_mem hq hnotin

/-- The seeded index for the C9 witness (the two chunks of the old
`Behavior.md` content). -/
def idx9 : VectorIndex :=
  [("Behavior.md_0".data, "foo".data), ("Behavior.md_1".data, "bar".data)]

set_option maxRecDepth 100000 in
/-- Witness for `c9_amended` at a concrete index and content. -/
theorem c9_amended_witness :
    idxLookup (apply_update_index idx9 "Behavior.md".data "# A\nbaz".data)
      "Behavior.md_0".data = some "baz".data ∧
    ("Behavior.md_1".data, "bar".data) ∈
      apply_update_index idx9 "Behavior.md".data "# A\nbaz".data :=
  ⟨(c9_amended idx9 "Behavior.md".data "# A\nbaz".data (by decide)).1
      ("Behavior.md_0".data, "baz".data) (by decide),
   (c9_amended idx9 "Behavior.md".data "# A\nbaz".data (by decide)).2
      ("Behavior.md_1".data, "bar".data) (by decide) (by decide)⟩

set_option maxRecDepth 100000 in
/-- Claim C10 (confirmed): `_count_observations` counts `- ` bullets
(after stripping, excluding the `[No `, `[AMOUNT]`, `[ ]` markers) over
the whole file, blind to sectioning: it is additive across any newline
split, the `## Last Updated` timestamp bullet is itself counted (the
`Behavior.md` template counts 4 observations: the two High-Risk Trigger
bullets, the `[None recorded yet]` bullet and the timestamp), and this
file-wide count is exactly what `apply_memory_update` compares against
the refinement threshold 7 and `consolidate_memory` against the
consolidation observation threshold 10. -/
theorem c10_observation_counter :
    (∀ a b : Str, count_observations (a ++ '\n' :: b) =
      count_observations a + count_observations b) ∧
    count_observations (behaviorTemplate ts0) = 4 ∧
    isObservationLine "- 2026-01-01 00:00:00".data = true ∧
    (∀ c : Str, uses_gemini_refinement c = true ↔
      REFINEMENT_THRESHOLD < count_observations c) ∧
    (∀ c : Str, needs_consolidation c = true ↔
      (CONSOLIDATION_SIZE_THRESHOLD < utf8Len c ∨
        CONSOLIDATION_OBSERVATION_THRESHOLD < count_observations c)) := by
  refine ⟨?_, by decide, by decide, ?_, ?_⟩
  · intro a b
    unfold count_observations
    rw [splitLines_append, List.countP_append]
  · intro c
    simp [uses_gemini_refinement]
  · intro c
    simp [needs_consolidation]
